import Mathlib

/-!
Verification of the Form-Agent lead-processing core against its
natural-language specification.

The development shallowly embeds the pipeline/orchestration core of the
repository: the lead normalizer (`src/config.py`, `src/core/config.py`,
`src/services/lead_processor.py`), the pre-call crew
(`src/crews/pre_call_crew.py`), the post-call crew
(`src/crews/post_call_crew.py`), the score router, and the orchestrator's
post-call persistence decision.  External collaborators (the reasoning-model
agent calls, calendar, e-mail, PDF rendering) are modelled as environment
records carrying their outcomes, exactly as the spec treats them (opaque
calls that either return structured data or fail).
-/

namespace FormAgent

/-- A JSON-ish form value as it arrives from the Google Apps Script payload.
Google Forms sends strings, numbers, arrays of strings, or null. -/
inductive FormValue where
  | str (s : String)
  | int (n : Int)
  | list (items : List String)
  | null
deriving DecidableEq, Repr

/-- Python truthiness of an optional string: `None` and `""` are falsy. -/
def optStrTruthy : Option String → Bool
  | none => false
  | some s => !(s == "")

/-- Python `x or d` on an optional string (empty string falls to default). -/
def pyStrOr (v : Option String) (d : String) : String :=
  match v with
  | none => d
  | some s => if s == "" then d else s

/-- `s.startswith(pre)` (character-list based, so it evaluates by kernel
reduction). -/
def pyStartsWith (s pre : String) : Bool :=
  pre.toList.isPrefixOf s.toList

/-- Python `s.strip()`: remove leading and trailing whitespace. -/
def pyStrip (s : String) : String :=
  String.mk (((s.toList.dropWhile Char.isWhitespace).reverse.dropWhile
    Char.isWhitespace).reverse)

/-- Python `s.lower()` (ASCII case folding suffices for the inputs here). -/
def pyLower (s : String) : String :=
  String.mk (s.toList.map Char.toLower)

/-- Python `s.replace(" ", "_")`: single-character replacement. -/
def pyUnderscoreSpaces (s : String) : String :=
  String.mk (s.toList.map fun c => if c = ' ' then '_' else c)

/-- Python `s[:n]`. -/
def strTakeChars (s : String) (n : Nat) : String :=
  String.mk (s.toList.take n)

/-- Python `x or d` on an optional int (`0` is falsy and falls to default). -/
def intOrDefault (v : Option Int) (d : Int) : Int :=
  match v with
  | none => d
  | some n => if n = 0 then d else n

/-- The digit characters of a string, in order (Python
`"".join(c for c in s if c.isdigit())`, restricted to ASCII digits). -/
def extractDigits (s : String) : String :=
  String.mk (s.toList.filter Char.isDigit)

/-- Python `s[-n:]` for a string known to have at least `n` characters. -/
def takeLastStr (s : String) (n : Nat) : String :=
  String.mk (s.toList.drop (s.toList.length - n))

/-- Digits of a list of digit characters read as a base-10 numeral. -/
def digitsToNat (cs : List Char) : Nat :=
  cs.foldl (fun a c => a * 10 + (c.toNat - 48)) 0

/-- Python `int(s)` on an already-stripped string: an optional sign followed
by at least one ASCII digit.  (Python additionally allows `_` digit grouping
and unicode digits; neither occurs in the inputs the claims are about.) -/
def pyIntParse (s : String) : Option Int :=
  match s.toList with
  | [] => none
  | '+' :: rest =>
      if rest ≠ [] ∧ rest.all Char.isDigit then some (Int.ofNat (digitsToNat rest)) else none
  | '-' :: rest =>
      if rest ≠ [] ∧ rest.all Char.isDigit then some (-(Int.ofNat (digitsToNat rest))) else none
  | cs =>
      if cs.all Char.isDigit then some (Int.ofNat (digitsToNat cs)) else none

namespace Config

/-- `src/config.py::format_phone_number`.  Note that `digits` contains only
digit characters, so the `digits.startswith("+")` branch of the source can
never fire; it is kept to mirror the source. -/
def format_phone_number (phone : String) : String :=
  if phone = "" then ""
  else
    let digits := extractDigits phone
    if digits.length == 10 then "+1" ++ digits
    else if digits.length == 11 && pyStartsWith digits "1" then "+" ++ digits
    else if pyStartsWith digits "+" then digits
    else if digits.length ≥ 10 then "+1" ++ takeLastStr digits 10
    else "+1" ++ digits

/-- `src/config.py::parse_infrastructure_criticality` (identical in
`src/core/config.py`).  The source computes `int(str(value).strip())`:
for an int input `str` then `int` round-trips to the same value; for a list
input `str` yields a bracketed literal that `int` always rejects. -/
def parse_infrastructure_criticality (value : FormValue) : Option Int :=
  match value with
  | .null => none
  | .int n => if 1 ≤ n ∧ n ≤ 5 then some n else none
  | .str s =>
      match pyIntParse (pyStrip s) with
      | some n => if 1 ≤ n ∧ n ≤ 5 then some n else none
      | none => none
  | .list _ => none

end Config

namespace CoreConfig

/-- `src/core/config.py::format_phone_number` (the parallel copy used by
`src/integrations/retell.py`). -/
def format_phone_number (phone : Option String) : Option String :=
  match phone with
  | none => none
  | some p =>
    if p = "" then none
    else
      let digits := extractDigits p
      if digits = "" then none
      else if digits.length == 10 then some ("+1" ++ digits)
      else if digits.length == 11 && pyStartsWith digits "1" then some ("+" ++ digits)
      else if digits.length ≥ 10 then some ("+1" ++ takeLastStr digits 10)
      else none

end CoreConfig

/-- `src/config.py::Settings` restricted to the lead-scoring thresholds,
the only settings the core logic branches on. -/
structure Settings where
  HOT_THRESHOLD : Int := 70
  WARM_THRESHOLD : Int := 40
deriving DecidableEq, Repr

/-- `src/models/enums.py::LeadCategory`. -/
inductive LeadCategory where
  | hot
  | warm
  | nurture
deriving DecidableEq, Repr

/-- `src/models/enums.py::CallSentiment`. -/
inductive CallSentiment where
  | positive
  | neutral
  | negative
deriving DecidableEq, Repr

/-- `src/models/lead.py::ParsedLead`.  `raw_form_data` keeps the original
payload (an ordered map of raw field names to values). -/
structure ParsedLead where
  company_name : String
  email : String
  phone : Option String := none
  website : Option String := none
  primary_goal : Option String := none
  business_challenges : Option String := none
  data_sources : Option String := none
  infrastructure_criticality : Option Int := none
  timeline : Option String := none
  preferred_datetime : Option String := none
  form_id : Option String := none
  submitted_at : Option String := none
  raw_form_data : Option (List (String × FormValue)) := none
deriving DecidableEq, Repr

/-- The pydantic bound `ge=1, le=5` on `ParsedLead.infrastructure_criticality`:
an accepted lead has the field absent or in `[1,5]`. -/
def leadICOk (l : ParsedLead) : Bool :=
  match l.infrastructure_criticality with
  | none => true
  | some n => decide (1 ≤ n ∧ n ≤ 5)

/-- `src/models/lead.py::CompanyResearch`.  `research_confidence` is a
`float` bounded to `[0,1]`; the fallback only ever writes `0.0`, so it is
modelled as a rational. -/
structure CompanyResearch where
  company_summary : String
  industry : String
  company_size_estimate : Option String := none
  tech_stack : List String := []
  recent_news : List String := []
  pain_points : List String := []
  ai_opportunities : List String := []
  competitors : List String := []
  key_contacts : List (List (String × String)) := []
  research_confidence : Rat := 0
deriving DecidableEq, Repr

/-- `src/models/lead.py::LeadScoring`. -/
structure LeadScoring where
  total_score : Int
  category : LeadCategory
  budget_score : Int
  timeline_score : Int
  fit_score : Int
  engagement_score : Int
  scoring_rationale : String
  priority_notes : Option String := none
deriving DecidableEq, Repr

/-- The pydantic field bounds on `LeadScoring` (`ge`/`le` on each field):
this is everything the model validates — there is no validator relating
`total_score` to the component scores. -/
def leadScoringBoundsOk (s : LeadScoring) : Bool :=
  decide (0 ≤ s.total_score ∧ s.total_score ≤ 100
    ∧ 0 ≤ s.budget_score ∧ s.budget_score ≤ 25
    ∧ 0 ≤ s.timeline_score ∧ s.timeline_score ≤ 25
    ∧ 0 ≤ s.fit_score ∧ s.fit_score ≤ 25
    ∧ 0 ≤ s.engagement_score ∧ s.engagement_score ≤ 25)

/-- `src/models/lead.py::PersonalizationContext`.  The objection map is an
ordered association list. -/
structure PersonalizationContext where
  custom_opener : String
  pain_point_reference : String
  value_proposition : String
  talking_points : List String := []
  suggested_questions : List String := []
  objection_handlers : List (String × String) := []
  call_strategy : String
deriving DecidableEq, Repr

/-- `src/models/results.py::PreCallResult`. -/
structure PreCallResult where
  success : Bool := true
  research : Option CompanyResearch := none
  scoring : Option LeadScoring := none
  personalization : Option PersonalizationContext := none
  errors : List String := []
deriving DecidableEq, Repr

/-- `src/models/call.py::CallAnalysis`. -/
structure CallAnalysis where
  call_summary : String
  sentiment : CallSentiment
  interest_level : Int
  key_pain_points : List String := []
  objections_raised : List String := []
  buying_signals : List String := []
  next_steps_discussed : List String := []
  meeting_agreed : Bool := false
  proposed_meeting_time : Option String := none
  budget_confirmed : Option Bool := none
  timeline_confirmed : Option Bool := none
  decision_maker_confirmed : Option Bool := none
  recommended_action : String
  updated_lead_score : Int
deriving DecidableEq, Repr

/-- `src/models/proposal.py::ProposalContent`. -/
structure ProposalContent where
  executive_summary : String
  problem_statement : String
  proposed_solution : String
  timeline : String
  investment : String
  next_steps : String
  case_studies : List String := []
  markdown_content : String
deriving DecidableEq, Repr

/-- `src/models/results.py::PostCallResult`. -/
structure PostCallResult where
  success : Bool := true
  analysis : Option CallAnalysis := none
  proposal : Option ProposalContent := none
  proposal_pdf_path : Option String := none
  email_sent : Bool := false
  meeting_booked : Bool := false
  meeting_link : Option String := none
  errors : List String := []
deriving DecidableEq, Repr

/-- `src/models/results.py::InquiryRecord`.  The persistence layer writes
status values as plain strings (`src/config.py::LeadStatus` constants), so
`status` is modelled as an optional string. -/
structure InquiryRecord where
  id : Option String := none
  company_name : String
  email : String
  phone : Option String := none
  website : Option String := none
  primary_goal : Option String := none
  business_challenges : Option String := none
  data_sources : Option String := none
  infrastructure_criticality : Option Int := none
  timeline : Option String := none
  preferred_datetime : Option String := none
  status : Option String := some "new"
  company_research : Option CompanyResearch := none
  lead_score : Option Int := none
  lead_category : Option String := none
  scoring_details : Option LeadScoring := none
  retell_call_id : Option String := none
  call_transcript : Option String := none
  call_recording_url : Option String := none
  call_duration_seconds : Option Int := none
  call_analysis : Option CallAnalysis := none
  proposal_url : Option String := none
  meeting_booked : Bool := false
  meeting_datetime : Option String := none
  meeting_link : Option String := none
  followup_sent : Bool := false
  followup_type : Option String := none
deriving DecidableEq, Repr

/-! ## Lead normalizer (`src/config.py::map_form_fields`,
`src/services/lead_processor.py::LeadProcessor.parse_form_submission`) -/

/-- `src/config.py::GOOGLE_FORM_FIELD_MAPPING` (identical in
`src/core/config.py`). -/
def GOOGLE_FORM_FIELD_MAPPING : List (String × String) :=
  [("Name ", "company_name"),
   ("Name", "company_name"),
   ("Email", "email"),
   ("Phone Number ", "phone"),
   ("Phone Number", "phone"),
   ("Website ", "website"),
   ("Website", "website"),
   ("What is your primary goal for implementing a custom AI system?", "primary_goal"),
   ("Please briefly describe the key business processes or challenges you are looking to address with AI.", "business_challenges"),
   ("Which of the following data sources are most relevant to your potential AI system?", "data_sources"),
   ("On a scale of 1 to 5, how critical is it for the AI system to operate entirely within your existing infrastructure?", "infrastructure_criticality"),
   ("What is your estimated timeline for launching a custom AI solution?", "timeline"),
   ("What date and time would you prefer for a follow-up discussion?", "preferred_datetime"),
   ("formId", "form_id"),
   ("submittedAt", "submitted_at"),
   ("timestamp", "submitted_at")]

/-- Lookup in the static field-name table. -/
def tableLookup (k : String) : Option String :=
  (GOOGLE_FORM_FIELD_MAPPING.find? (fun p => p.1 == k)).map Prod.snd

/-- The generic slug transform of the unmapped-key branch:
`raw_key.strip().lower().replace(" ", "_")`. -/
def slugKey (k : String) : String :=
  pyUnderscoreSpaces (pyLower (pyStrip k))

/-- The key a raw field name is normalized to: exact table match, then the
table keyed by the stripped name, then the slug passthrough. -/
def mappedKeyFor (k : String) : String :=
  match tableLookup k with
  | some m => m
  | none =>
    match tableLookup (pyStrip k) with
    | some m => m
    | none => slugKey k

/-- Array-value collapsing: empty list becomes null (`None`), otherwise the
elements are comma-joined (`", ".join(...)`). -/
def collapseValue : FormValue → FormValue
  | .list items => if items.isEmpty then .null else .str (String.intercalate ", " items)
  | v => v

/-- Whether an association list (a Python dict viewed in insertion order)
has a binding for `k`. -/
def hasKey (m : List (String × FormValue)) (k : String) : Bool :=
  m.any (fun p => p.1 == k)

/-- Dict assignment `m[k] = v`: overwrite in place, else append. -/
def setKey (m : List (String × FormValue)) (k : String) (v : FormValue) :
    List (String × FormValue) :=
  if hasKey m k then m.map (fun p => if p.1 == k then (k, v) else p)
  else m ++ [(k, v)]

/-- Dict lookup `m.get(k)`. -/
def getVal (m : List (String × FormValue)) (k : String) : Option FormValue :=
  (m.find? (fun p => p.1 == k)).map Prod.snd

/-- `src/config.py::map_form_fields` (identical in `src/core/config.py`). -/
def map_form_fields (raw : List (String × FormValue)) : List (String × FormValue) :=
  raw.foldl (fun acc kv => setKey acc (mappedKeyFor kv.1) (collapseValue kv.2)) []

/-- Pydantic `EmailStr`, modelled abstractly: the address must contain an
`@`.  (The real validator is stricter; no claim depends on the fine
structure of address validation.) -/
def emailOk (s : String) : Bool :=
  s.toList.contains '@'

/-- Pydantic validation of a required `str` field of `ParsedLead`: the field
must be present and be a string. -/
def reqStrField (m : List (String × FormValue)) (k : String) : Except String String :=
  match getVal m k with
  | some (.str s) => .ok s
  | some _ => .error ("invalid string for " ++ k)
  | none => .error ("missing " ++ k)

/-- Pydantic validation of an `Optional[str]` field of `ParsedLead`. -/
def optStrField (m : List (String × FormValue)) (k : String) :
    Except String (Option String) :=
  match getVal m k with
  | none => .ok none
  | some .null => .ok none
  | some (.str s) => .ok (some s)
  | some _ => .error ("invalid string for " ++ k)

/-- Pydantic validation of `ParsedLead.infrastructure_criticality`
(`Optional[int]` with `ge=1, le=5`): integers and integer-shaped strings are
coerced, then bound-checked; anything else, and any out-of-range value, is a
validation error — the field never silently becomes absent. -/
def critField (m : List (String × FormValue)) : Except String (Option Int) :=
  match getVal m "infrastructure_criticality" with
  | none => .ok none
  | some .null => .ok none
  | some (.int n) =>
      if 1 ≤ n ∧ n ≤ 5 then .ok (some n)
      else .error "infrastructure_criticality out of range"
  | some (.str s) =>
      match pyIntParse (pyStrip s) with
      | some n =>
          if 1 ≤ n ∧ n ≤ 5 then .ok (some n)
          else .error "infrastructure_criticality out of range"
      | none => .error "infrastructure_criticality not an integer"
  | some (.list _) => .error "infrastructure_criticality not an integer"

/-- `src/services/lead_processor.py::LeadProcessor.parse_form_submission`:
map the raw field names, attach the raw payload under `raw_form_data`, and
validate into a `ParsedLead`.  A pydantic `ValidationError` is the `.error`
case. -/
def parse_form_submission (raw : List (String × FormValue)) :
    Except String ParsedLead := do
  let m := map_form_fields raw
  let company_name ← reqStrField m "company_name"
  let email ← reqStrField m "email"
  if emailOk email then
    let phone ← optStrField m "phone"
    let website ← optStrField m "website"
    let primary_goal ← optStrField m "primary_goal"
    let business_challenges ← optStrField m "business_challenges"
    let data_sources ← optStrField m "data_sources"
    let infrastructure_criticality ← critField m
    let timeline ← optStrField m "timeline"
    let preferred_datetime ← optStrField m "preferred_datetime"
    let form_id ← optStrField m "form_id"
    let submitted_at ← optStrField m "submitted_at"
    .ok { company_name, email, phone, website, primary_goal,
          business_challenges, data_sources, infrastructure_criticality,
          timeline, preferred_datetime, form_id, submitted_at,
          raw_form_data := some raw }
  else .error "value is not a valid email address"

/-! ## Pre-call crew (`src/crews/pre_call_crew.py::PreCallCrew`; the copy in
`src/intelligence/crews/pre_call.py` has the same control flow) -/

/-- `PreCallCrew._get_fallback_research`. -/
def fallbackResearch (lead : ParsedLead) : CompanyResearch :=
  { company_summary :=
      "Company: " ++ lead.company_name ++ ". Website: " ++ pyStrOr lead.website "Unknown",
    industry := "Unknown",
    company_size_estimate := none,
    tech_stack := [],
    recent_news := [],
    pain_points :=
      if optStrTruthy lead.business_challenges then [lead.business_challenges.getD ""] else [],
    ai_opportunities :=
      if optStrTruthy lead.primary_goal then [lead.primary_goal.getD ""] else [],
    competitors := [],
    research_confidence := 0 }

/-- `PreCallCrew._get_fallback_scoring`.  Note the category thresholds `70`
and `40` are literal constants in the source, not `Settings` values. -/
def fallbackScoring (lead : ParsedLead) : LeadScoring :=
  let budget_score := intOrDefault lead.infrastructure_criticality 3 * 5
  let timeline_score : Int := if optStrTruthy lead.timeline then 15 else 8
  let fit_score : Int := if optStrTruthy lead.primary_goal then 15 else 10
  let engagement_score : Int := if optStrTruthy lead.business_challenges then 15 else 10
  let total := budget_score + timeline_score + fit_score + engagement_score
  let category : LeadCategory :=
    if total ≥ 70 then .hot else if total ≥ 40 then .warm else .nurture
  { total_score := total,
    category := category,
    budget_score := budget_score,
    timeline_score := timeline_score,
    fit_score := fit_score,
    engagement_score := engagement_score,
    scoring_rationale := "Fallback scoring based on form data only - AI scoring failed",
    priority_notes := some "Manual review recommended" }

/-- `PreCallCrew._get_fallback_personalization`. -/
def fallbackPersonalization (lead : ParsedLead) : PersonalizationContext :=
  { custom_opener :=
      "Thank you for your interest in Nodari AI, " ++ lead.company_name ++ ". " ++
      "I\x27d love to learn more about your AI initiatives.",
    pain_point_reference :=
      "You mentioned interest in " ++ pyStrOr lead.primary_goal "AI solutions" ++ ". " ++
      "Tell me more about what prompted that.",
    value_proposition :=
      "At Nodari AI, we help companies implement custom AI solutions " ++
      "that drive real business results.",
    talking_points :=
      ["Understand their specific use case",
       "Discuss timeline and priorities",
       "Identify decision makers",
       "Explore budget considerations"],
    suggested_questions :=
      ["What\x27s driving your interest in AI right now?",
       "What would success look like for this project?",
       "Who else is involved in this decision?",
       "What\x27s your ideal timeline?",
       "Have you worked with AI solutions before?"],
    objection_handlers :=
      [("We\x27re not ready yet",
        "I understand. Many companies start with a discovery " ++
        "conversation to understand what\x27s possible. No commitment needed."),
       ("Budget is tight",
        "That\x27s common. We can discuss options that fit different " ++
        "investment levels, or start with a pilot."),
       ("We\x27re exploring other options",
        "That makes sense. I\x27d love to understand " ++
        "what you\x27re looking for so I can share how we differ."),
       ("Need to talk to my team",
        "Absolutely. Would it help if I sent over some " ++
        "information you could share with them?")],
    call_strategy :=
      "Focus on discovery and understanding their needs. " ++
      "Build rapport and identify next steps." }

/-- Outcomes of the three opaque reasoning-model calls of a pre-call run:
`some x` models `task.output.pydantic` returning a (schema-valid) value,
`none` models the call failing or returning no structured output, in which
case the crew records an error and substitutes the deterministic fallback. -/
structure PreCallAgentOutcomes where
  researchOut : Option CompanyResearch
  scoringOut : Option LeadScoring
  personalizationOut : Option PersonalizationContext
deriving DecidableEq, Repr

/-- Append an error string to a pre-call result accumulator. -/
def preAddError (r : PreCallResult) (e : String) : PreCallResult :=
  { r with errors := r.errors ++ [e] }

/-- `PreCallCrew._run_research`: on a real output the result field is
assigned and the value returned; on failure only an error is recorded and
the fallback value is returned — the result field is left untouched. -/
def runResearchStage (agents : PreCallAgentOutcomes) (lead : ParsedLead)
    (result : PreCallResult) : CompanyResearch × PreCallResult :=
  match agents.researchOut with
  | some r => (r, { result with research := some r })
  | none => (fallbackResearch lead, preAddError result "Research returned no output")

/-- `PreCallCrew._run_scoring` (the scoring task consumes the research value,
real or fallback; the fallback formula itself depends only on the lead). -/
def runScoringStage (agents : PreCallAgentOutcomes) (lead : ParsedLead)
    (result : PreCallResult) : LeadScoring × PreCallResult :=
  match agents.scoringOut with
  | some s => (s, { result with scoring := some s })
  | none => (fallbackScoring lead, preAddError result "Scoring returned no output")

/-- `PreCallCrew._run_personalization`. -/
def runPersonalizationStage (agents : PreCallAgentOutcomes) (lead : ParsedLead)
    (result : PreCallResult) : PersonalizationContext × PreCallResult :=
  match agents.personalizationOut with
  | some p => (p, { result with personalization := some p })
  | none => (fallbackPersonalization lead, preAddError result "Personalization returned no output")

/-- `PreCallCrew.run`, additionally exposing the three stage values (real or
fallback) that each stage hands to the next one. -/
def runPreCallFull (agents : PreCallAgentOutcomes) (lead : ParsedLead) :
    PreCallResult × CompanyResearch × LeadScoring × PersonalizationContext :=
  let r0 : PreCallResult := {}
  let step1 := runResearchStage agents lead r0
  let step2 := runScoringStage agents lead step1.2
  let step3 := runPersonalizationStage agents lead step2.2
  (step3.2, step1.1, step2.1, step3.1)

/-- `PreCallCrew.run`: the `PreCallResult` a pre-call pipeline run returns. -/
def runPreCall (agents : PreCallAgentOutcomes) (lead : ParsedLead) : PreCallResult :=
  (runPreCallFull agents lead).1

/-! ## Router and post-call crew (`src/crews/post_call_crew.py::PostCallCrew`) -/

/-- The score-based routing decision of `PostCallCrew.run` (the
`interest_level >= HOT_THRESHOLD / >= WARM_THRESHOLD / else` ladder). -/
def route (score hot warm : Int) : LeadCategory :=
  if score ≥ hot then .hot
  else if score ≥ warm then .warm
  else .nurture

/-- Which follow-up e-mail template the crew invoked (instrumentation of the
three `email_service.send_*` call sites). -/
inductive EmailKind where
  | hotLead
  | warmLead
  | nurture
deriving DecidableEq, Repr

/-- Outcomes of the external collaborators a post-call run touches.
`analysisOut`/`proposalOut` model the two reasoning-model calls
(`none` = failed or unstructured output); the remaining fields model the
calendar, PDF and e-mail services. -/
structure PostCallEnv where
  analysisOut : Option CallAnalysis
  proposalOut : Option ProposalContent
  /-- `proposal_generator.markdown_to_pdf` always returns a file path
  (it degrades to writing the markdown itself). -/
  pdfPath : String
  calendarAvailable : Bool
  /-- `calendar_service.parse_meeting_time` on the proposed time text. -/
  parsedTime : Option Nat
  /-- `calendar_service.find_available_slot(datetime.now())`. -/
  nextSlot : Option Nat
  /-- `calendar_service.create_meeting` result. -/
  meetingLink : Option String
  hotEmailOk : Bool
  warmEmailOk : Bool
  nurtureEmailOk : Bool
deriving DecidableEq, Repr

/-- Append an error string to a post-call result accumulator. -/
def postAddError (r : PostCallResult) (e : String) : PostCallResult :=
  { r with errors := r.errors ++ [e] }

/-- `PostCallCrew._get_fallback_analysis`. -/
def fallbackAnalysis (transcript : String) (call_summary : Option String) : CallAnalysis :=
  let summary :=
    pyStrOr call_summary ("Call transcript (" ++ toString transcript.length ++ " chars)")
  { call_summary := strTakeChars summary 500,
    sentiment := .neutral,
    interest_level := 50,
    key_pain_points := [],
    objections_raised := [],
    buying_signals := [],
    next_steps_discussed := [],
    meeting_agreed := false,
    proposed_meeting_time := none,
    budget_confirmed := none,
    timeline_confirmed := none,
    decision_maker_confirmed := none,
    recommended_action := "Manual review required - automated analysis failed",
    updated_lead_score := 50 }

/-- The analysis value `PostCallCrew._run_analysis` hands to routing: the
real agent output when one was produced, the deterministic fallback
otherwise.  Every code path of `_run_analysis` returns a value, so the
`if not analysis` abort in `run` is unreachable. -/
def postAnalysisValue (env : PostCallEnv) (transcript : String)
    (call_summary : Option String) : CallAnalysis :=
  match env.analysisOut with
  | some a => a
  | none => fallbackAnalysis transcript call_summary

/-- `PostCallCrew._book_meeting`: returns the meeting link (if booked) and
the updated result.  Mirrors the source: unavailable calendar, unparseable
time with no free slot, and event-creation failure each record an error and
book nothing. -/
def bookMeeting (env : PostCallEnv) (analysis : CallAnalysis)
    (result : PostCallResult) : Option String × PostCallResult :=
  if !env.calendarAvailable then
    (none, postAddError result "Calendar service not configured")
  else
    let t0 : Option Nat :=
      if optStrTruthy analysis.proposed_meeting_time then env.parsedTime else none
    let meetingTime := if t0.isNone then env.nextSlot else t0
    match meetingTime with
    | none => (none, postAddError result "No available meeting slots")
    | some _ =>
      match env.meetingLink with
      | some link =>
          (some link, { result with meeting_booked := true, meeting_link := some link })
      | none => (none, postAddError result "Failed to create calendar event")

/-- `PostCallCrew._process_hot_lead` (result part): proposal (no fallback —
absence is tolerated), optional meeting booking, then the hot-lead e-mail. -/
def processHotLeadResult (env : PostCallEnv) (analysis : CallAnalysis)
    (result : PostCallResult) : PostCallResult :=
  let result1 :=
    match env.proposalOut with
    | some p => { result with proposal := some p, proposal_pdf_path := some env.pdfPath }
    | none => postAddError result "Proposal generation returned no output"
  let result2 :=
    if analysis.meeting_agreed && optStrTruthy analysis.proposed_meeting_time then
      (bookMeeting env analysis result1).2
    else result1
  let result3 := { result2 with email_sent := env.hotEmailOk }
  if env.hotEmailOk then result3
  else postAddError result3 "Failed to send hot lead email"

/-- `PostCallCrew._process_hot_lead` with the e-mail template trace. -/
def processHotLead (env : PostCallEnv) (analysis : CallAnalysis)
    (result : PostCallResult) : PostCallResult × List EmailKind :=
  (processHotLeadResult env analysis result, [EmailKind.hotLead])

/-- `PostCallCrew._process_warm_lead` (result part): the case-study e-mail. -/
def processWarmLeadResult (env : PostCallEnv) (result : PostCallResult) : PostCallResult :=
  let result1 := { result with email_sent := env.warmEmailOk }
  if env.warmEmailOk then result1
  else postAddError result1 "Failed to send warm lead email"

/-- `PostCallCrew._process_warm_lead` with the e-mail template trace. -/
def processWarmLead (env : PostCallEnv) (result : PostCallResult) :
    PostCallResult × List EmailKind :=
  (processWarmLeadResult env result, [EmailKind.warmLead])

/-- `PostCallCrew._process_nurture_lead` (result part). -/
def processNurtureLeadResult (env : PostCallEnv) (result : PostCallResult) : PostCallResult :=
  let result1 := { result with email_sent := env.nurtureEmailOk }
  if env.nurtureEmailOk then result1
  else postAddError result1 "Failed to send nurture email"

/-- `PostCallCrew._process_nurture_lead` with the e-mail template trace. -/
def processNurtureLead (env : PostCallEnv) (result : PostCallResult) :
    PostCallResult × List EmailKind :=
  (processNurtureLeadResult env result, [EmailKind.nurture])

/-- `PostCallCrew.run`: analysis (real or fallback), then the threshold
ladder selects exactly one track.  Also returns the trace of e-mail
templates invoked. -/
def runPostCall (env : PostCallEnv) (transcript : String)
    (call_summary : Option String) (settings : Settings) :
    PostCallResult × List EmailKind :=
  let base : PostCallResult := {}
  let analysis := postAnalysisValue env transcript call_summary
  let r1 :=
    match env.analysisOut with
    | some _ => base
    | none => postAddError base "Analysis returned no output"
  let r2 := { r1 with analysis := some analysis }
  if analysis.interest_level ≥ settings.HOT_THRESHOLD then
    processHotLead env analysis r2
  else if analysis.interest_level ≥ settings.WARM_THRESHOLD then
    processWarmLead env r2
  else
    processNurtureLead env r2

/-! ## Orchestrator (`src/services/lead_processor.py::LeadProcessor`) and
persistence decisions (`src/database.py::DatabaseService`) -/

/-- `DatabaseService.update_call_completed`. -/
def updateCallCompleted (r : InquiryRecord) (transcript : String)
    (recording_url : Option String) (duration : Option Int) : InquiryRecord :=
  let r := { r with call_transcript := some transcript, status := some "call_completed" }
  let r := if optStrTruthy recording_url then { r with call_recording_url := recording_url } else r
  match duration with
  | some d => if d ≠ 0 then { r with call_duration_seconds := some d } else r
  | none => r

/-- `DatabaseService.update_call_analysis`. -/
def updateCallAnalysis (r : InquiryRecord) (a : CallAnalysis) : InquiryRecord :=
  { r with call_analysis := some a, status := some "analyzed" }

/-- `DatabaseService.update_hot_processed` (timestamps elided). -/
def updateHotProcessed (r : InquiryRecord) (proposal_url : String)
    (mb : Bool) (mlink : Option String) : InquiryRecord :=
  let r := { r with proposal_url := some proposal_url, meeting_booked := mb,
                    followup_sent := true, followup_type := some "hot_proposal",
                    status := some "hot_processed" }
  match mlink with
  | some l => { r with meeting_link := some l }
  | none => r

/-- `DatabaseService.update_warm_processed`. -/
def updateWarmProcessed (r : InquiryRecord) : InquiryRecord :=
  { r with followup_sent := true, followup_type := some "warm_case_study",
           status := some "warm_processed" }

/-- `DatabaseService.update_nurture_processed`. -/
def updateNurtureProcessed (r : InquiryRecord) : InquiryRecord :=
  { r with followup_sent := true, followup_type := some "nurture_email",
           status := some "nurture_processed" }

/-- `LeadProcessor._update_post_call_results`, as the record transformation
it persists: analysis saved unconditionally when present; then hot if a
proposal path or booked meeting is present (Python truthiness of the path),
else the warm/nurture re-derivation against the warm threshold. -/
def updatePostCallResults (settings : Settings) (result : PostCallResult)
    (record : InquiryRecord) : InquiryRecord :=
  let record :=
    match result.analysis with
    | some a => updateCallAnalysis record a
    | none => record
  if optStrTruthy result.proposal_pdf_path || result.meeting_booked then
    updateHotProcessed record (pyStrOr result.proposal_pdf_path "")
      result.meeting_booked result.meeting_link
  else
    match result.analysis with
    | some a =>
        if result.email_sent then
          if a.interest_level ≥ settings.WARM_THRESHOLD then updateWarmProcessed record
          else updateNurtureProcessed record
        else record
    | none => record

/-- The inbound Retell webhook event, by its extracted fields
(`src/models/call.py::RetellWebhookPayload`; the `call` dict is modelled by
the fields `process_retell_webhook` reads from it). -/
structure RetellWebhookPayload where
  event : String
  call_id : Option String := none
  transcript : String := ""
  recording_url : Option String := none
  duration : Option Int := none
  call_summary : String := ""
deriving DecidableEq, Repr

/-- `DatabaseService.get_inquiry_by_call_id` over the record store. -/
def getInquiryByCallId (store : List InquiryRecord) (call_id : Option String) :
    Option InquiryRecord :=
  match call_id with
  | none => none
  | some cid => store.find? (fun r => r.retell_call_id == some cid)

/-- Apply an update to the store record with the given id. -/
def storeUpdate (store : List InquiryRecord) (id : Option String)
    (f : InquiryRecord → InquiryRecord) : List InquiryRecord :=
  store.map (fun r => if r.id == id then f r else r)

/-- `LeadProcessor.process_retell_webhook` as a store transition.  Returns
the new store and whether the post-call pipeline ran.  Non-`call_analyzed`
events return immediately; a `call_analyzed` event whose call id matches no
record is dropped. -/
def process_retell_webhook (env : PostCallEnv) (settings : Settings)
    (payload : RetellWebhookPayload) (store : List InquiryRecord) :
    List InquiryRecord × Bool :=
  if payload.event ≠ "call_analyzed" then (store, false)
  else
    match getInquiryByCallId store payload.call_id with
    | none => (store, false)
    | some inquiry =>
      let store1 := storeUpdate store inquiry.id
        (fun r => updateCallCompleted r payload.transcript payload.recording_url payload.duration)
      let result := (runPostCall env payload.transcript (some payload.call_summary) settings).1
      let store2 := storeUpdate store1 inquiry.id
        (fun r => updatePostCallResults settings result r)
      (store2, true)

/-- The HTTP-level acknowledgment of `src/api/webhooks.py::retell_webhook`:
the response status string and whether a background processing task was
scheduled.  Non-`call_analyzed` events are acknowledged as "ignored" with no
task scheduled. -/
def retellWebhookAck (payload : RetellWebhookPayload) : String × Bool :=
  if payload.event ≠ "call_analyzed" then ("ignored", false)
  else ("accepted", true)

/-! ## Concrete sample data used by witnesses and counterexamples -/

/-- A minimal valid lead (only the required fields). -/
def cexLead : ParsedLead :=
  { company_name := "Acme", email := "a@acme.com" }

/-- A lead whose fallback scoring totals 65 (budget 25, timeline 15, fit 15,
engagement 10). -/
def cexLead3 : ParsedLead :=
  { company_name := "Acme", email := "a@acme.com",
    infrastructure_criticality := some 5, timeline := some "this month",
    primary_goal := some "automation" }

/-- A lead with a mid-range criticality, used to instantiate witnesses. -/
def witLead : ParsedLead :=
  { company_name := "Beta", email := "b@beta.io",
    infrastructure_criticality := some 2, business_challenges := some "churn" }

/-- All three pre-call reasoning calls fail (or return no structured output). -/
def preEnvAllFail : PreCallAgentOutcomes :=
  { researchOut := none, scoringOut := none, personalizationOut := none }

/-- A bounds-valid `LeadScoring` whose total is not the component sum. -/
def badScoring : LeadScoring :=
  { total_score := 100, category := .hot, budget_score := 0, timeline_score := 0,
    fit_score := 0, engagement_score := 0, scoring_rationale := "r" }

/-- The raw form question mapped to `infrastructure_criticality`. -/
def critQuestion : String :=
  "On a scale of 1 to 5, how critical is it for the AI system to operate entirely within your existing infrastructure?"

/-- A raw payload whose criticality answer is the out-of-range integer 7. -/
def rawCrit7 : List (String × FormValue) :=
  [("Email", .str "a@b.com"), ("Name", .str "Acme"), (critQuestion, .int 7)]

/-- A raw payload whose criticality answer is a non-numeric string. -/
def rawCritStr : List (String × FormValue) :=
  [("Email", .str "a@b.com"), ("Name", .str "Acme"), (critQuestion, .str "very critical")]

/-- A raw payload with an exactly-mapped, a stripped-mapped and an unmapped
field. -/
def raw0 : List (String × FormValue) :=
  [("Email", .str "a@b.com"), ("Name ", .str "Acme"), ("Custom Field", .str "x")]

/-- The lead `parse_form_submission` produces from `raw0`. -/
def lead0 : ParsedLead :=
  { company_name := "Acme", email := "a@b.com", raw_form_data := some raw0 }

/-- An analysis with interest 75 where a meeting was agreed with a proposed
time. -/
def a75meet : CallAnalysis :=
  { call_summary := "good call", sentiment := .positive, interest_level := 75,
    meeting_agreed := true, proposed_meeting_time := some "tomorrow 3pm",
    recommended_action := "book a meeting", updated_lead_score := 80 }

/-- An analysis with interest 75 and no meeting agreed. -/
def a75nb : CallAnalysis :=
  { call_summary := "good call", sentiment := .positive, interest_level := 75,
    meeting_agreed := false, proposed_meeting_time := none,
    recommended_action := "send follow-up", updated_lead_score := 80 }

/-- Hot-track environment in which the calendar books a meeting and the
hot-lead e-mail succeeds. -/
def envBoth : PostCallEnv :=
  { analysisOut := some a75meet, proposalOut := none, pdfPath := "out.pdf",
    calendarAvailable := true, parsedTime := some 10, nextSlot := none,
    meetingLink := some "https://cal/link", hotEmailOk := true,
    warmEmailOk := true, nurtureEmailOk := true }

/-- Hot-track environment in which proposal generation fails, no meeting was
agreed, and the follow-up e-mail succeeds. -/
def envHotNoProp : PostCallEnv :=
  { analysisOut := some a75nb, proposalOut := none, pdfPath := "out.pdf",
    calendarAvailable := true, parsedTime := none, nextSlot := none,
    meetingLink := none, hotEmailOk := true,
    warmEmailOk := false, nurtureEmailOk := false }

/-- An inert environment for events that never reach the pipeline. -/
def env0 : PostCallEnv :=
  { analysisOut := none, proposalOut := none, pdfPath := "p.pdf",
    calendarAvailable := false, parsedTime := none, nextSlot := none,
    meetingLink := none, hotEmailOk := false, warmEmailOk := false,
    nurtureEmailOk := false }

/-- A stored inquiry record used by witnesses. -/
def rec0 : InquiryRecord :=
  { company_name := "Acme", email := "a@acme.com" }

/-- A non-`call_analyzed` Retell event. -/
def ackPayload : RetellWebhookPayload :=
  { event := "call_started", call_id := some "c1" }

/-- A `call_analyzed` event whose call id matches no stored record. -/
def unknownPayload : RetellWebhookPayload :=
  { event := "call_analyzed", call_id := some "missing" }

end FormAgent

namespace FormAgent

/-! ## Helper lemmas -/

theorem fallbackScoring_sum (lead : ParsedLead) :
    (fallbackScoring lead).total_score
      = (fallbackScoring lead).budget_score + (fallbackScoring lead).timeline_score
        + (fallbackScoring lead).fit_score + (fallbackScoring lead).engagement_score := rfl

theorem fallbackScoring_cat (lead : ParsedLead) :
    (fallbackScoring lead).category = route (fallbackScoring lead).total_score 70 40 := rfl

theorem fallbackScoring_bounds (lead : ParsedLead) (h : leadICOk lead = true) :
    leadScoringBoundsOk (fallbackScoring lead) = true := by
  unfold leadScoringBoundsOk fallbackScoring
  unfold leadICOk at h
  cases hic : lead.infrastructure_criticality with
  | none =>
      simp only [hic, intOrDefault]
      rw [decide_eq_true_eq]
      split_ifs <;> omega
  | some n =>
      rw [hic] at h
      have hn : 1 ≤ n ∧ n ≤ 5 := of_decide_eq_true h
      simp only [hic, intOrDefault]
      rw [decide_eq_true_eq]
      split_ifs <;> omega

end FormAgent

namespace FormAgent

/-! ## Claim theorems -/

/-- C4: the routing function is a pure function of score and thresholds and,
with thresholds hot = 70 and warm = 40, maps score ≥ 70 to HOT,
40 ≤ score < 70 to WARM, and score < 40 to NURTURE; in particular
route(85)=HOT, route(70)=HOT, route(69)=WARM, route(40)=WARM,
route(39)=NURTURE, route(0)=NURTURE. -/
theorem route_threshold_spec :
    (∀ s : Int, (route s 70 40 = LeadCategory.hot ↔ 70 ≤ s)
      ∧ (route s 70 40 = LeadCategory.warm ↔ 40 ≤ s ∧ s < 70)
      ∧ (route s 70 40 = LeadCategory.nurture ↔ s < 40))
    ∧ route 85 70 40 = LeadCategory.hot
    ∧ route 70 70 40 = LeadCategory.hot
    ∧ route 69 70 40 = LeadCategory.warm
    ∧ route 40 70 40 = LeadCategory.warm
    ∧ route 39 70 40 = LeadCategory.nurture
    ∧ route 0 70 40 = LeadCategory.nurture := by
  refine ⟨fun s => ?_, by decide, by decide, by decide, by decide, by decide, by decide⟩
  refine ⟨?_, ?_, ?_⟩ <;>
    · unfold route
      split_ifs <;> simp <;> omega

/-- C3 (amended): the Scoring-stage fallback computes
budget = (infrastructure_criticality or 3) × 5, timeline = 15/8, fit = 15/10,
engagement = 15/10, total = their sum, and a bounds-valid scoring — but the
category is derived from total with the hard-coded thresholds 70/40 of
`_get_fallback_scoring`, not the externally configured `Settings`
thresholds; it agrees with the configured Router only at the default
configuration (70, 40). -/
theorem fallback_scoring_formula (lead : ParsedLead) (h : leadICOk lead = true) :
    (fallbackScoring lead).budget_score = intOrDefault lead.infrastructure_criticality 3 * 5
    ∧ (fallbackScoring lead).timeline_score = (if optStrTruthy lead.timeline then 15 else 8)
    ∧ (fallbackScoring lead).fit_score = (if optStrTruthy lead.primary_goal then 15 else 10)
    ∧ (fallbackScoring lead).engagement_score
        = (if optStrTruthy lead.business_challenges then 15 else 10)
    ∧ (fallbackScoring lead).total_score
        = (fallbackScoring lead).budget_score + (fallbackScoring lead).timeline_score
          + (fallbackScoring lead).fit_score + (fallbackScoring lead).engagement_score
    ∧ leadScoringBoundsOk (fallbackScoring lead) = true
    ∧ (fallbackScoring lead).category = route (fallbackScoring lead).total_score 70 40 :=
  ⟨rfl, rfl, rfl, rfl, fallbackScoring_sum lead, fallbackScoring_bounds lead h,
   fallbackScoring_cat lead⟩

/-- Witness for C3's theorem at a concrete lead. -/
theorem fallback_scoring_formula_witness :
    (fallbackScoring cexLead3).total_score
      = (fallbackScoring cexLead3).budget_score + (fallbackScoring cexLead3).timeline_score
        + (fallbackScoring cexLead3).fit_score + (fallbackScoring cexLead3).engagement_score
    ∧ leadScoringBoundsOk (fallbackScoring cexLead3) = true :=
  ⟨(fallback_scoring_formula cexLead3 (by decide)).2.2.2.2.1,
   (fallback_scoring_formula cexLead3 (by decide)).2.2.2.2.2.1⟩

/-- Counterexample for C3 as stated: with configured thresholds
hot = 60, warm = 40 the fallback's category (computed with the hard-coded
70/40) disagrees with the Router at those thresholds: a lead totalling 65 is
categorized WARM by the fallback while the Router says HOT. -/
theorem fallback_category_hardcoded_cex :
    (fallbackScoring cexLead3).total_score = 65
    ∧ (fallbackScoring cexLead3).category = LeadCategory.warm
    ∧ route (fallbackScoring cexLead3).total_score 60 40 = LeadCategory.hot := by
  refine ⟨by decide, by decide, by decide⟩

/-- C5 (amended): every `LeadScoring` the model accepts has each component
in [0,25] and total in [0,100] (the pydantic field bounds), but the model
does not enforce total = sum of components; fallback-produced scorings do
satisfy total = sum, are bounds-valid, and carry the category of the
hard-coded 70/40 Router applied to the total. -/
theorem lead_scoring_bounds_and_fallback_sum :
    (∀ s : LeadScoring, leadScoringBoundsOk s = true →
        0 ≤ s.total_score ∧ s.total_score ≤ 100
        ∧ 0 ≤ s.budget_score ∧ s.budget_score ≤ 25
        ∧ 0 ≤ s.timeline_score ∧ s.timeline_score ≤ 25
        ∧ 0 ≤ s.fit_score ∧ s.fit_score ≤ 25
        ∧ 0 ≤ s.engagement_score ∧ s.engagement_score ≤ 25)
    ∧ (∀ lead : ParsedLead, leadICOk lead = true →
        (fallbackScoring lead).total_score
          = (fallbackScoring lead).budget_score + (fallbackScoring lead).timeline_score
            + (fallbackScoring lead).fit_score + (fallbackScoring lead).engagement_score
        ∧ leadScoringBoundsOk (fallbackScoring lead) = true
        ∧ (fallbackScoring lead).category = route (fallbackScoring lead).total_score 70 40) := by
  constructor
  · intro s hs
    exact of_decide_eq_true hs
  · intro lead h
    exact ⟨fallbackScoring_sum lead, fallbackScoring_bounds lead h, fallbackScoring_cat lead⟩

/-- Witness for C5's theorem at concrete inputs. -/
theorem lead_scoring_bounds_and_fallback_sum_witness :
    (0 ≤ badScoring.total_score ∧ badScoring.total_score ≤ 100
      ∧ 0 ≤ badScoring.budget_score ∧ badScoring.budget_score ≤ 25
      ∧ 0 ≤ badScoring.timeline_score ∧ badScoring.timeline_score ≤ 25
      ∧ 0 ≤ badScoring.fit_score ∧ badScoring.fit_score ≤ 25
      ∧ 0 ≤ badScoring.engagement_score ∧ badScoring.engagement_score ≤ 25)
    ∧ leadScoringBoundsOk (fallbackScoring witLead) = true :=
  ⟨lead_scoring_bounds_and_fallback_sum.1 badScoring (by decide),
   (lead_scoring_bounds_and_fallback_sum.2 witLead (by decide)).2.1⟩

/-- Counterexample for C5 as stated: the model accepts (bounds-validates) a
scoring whose total is not the sum of its components, so the
total = sum invariant is not enforced on accepted values. -/
theorem lead_scoring_sum_unenforced_cex :
    leadScoringBoundsOk badScoring = true
    ∧ badScoring.total_score
        ≠ badScoring.budget_score + badScoring.timeline_score
          + badScoring.fit_score + badScoring.engagement_score := by
  refine ⟨by decide, by decide⟩

/-- C1 (amended): a pre-call pipeline run always completes all three stages,
computing for each a non-absent value (the real agent output or the
deterministic fallback) that is handed to the next stage, and always reports
success — but the `PreCallResult` fields hold exactly the real stage
outputs: a stage that fell back leaves its result field absent. -/
theorem pre_call_fields_only_real (agents : PreCallAgentOutcomes) (lead : ParsedLead) :
    (runPreCall agents lead).success = true
    ∧ (runPreCall agents lead).research = agents.researchOut
    ∧ (runPreCall agents lead).scoring = agents.scoringOut
    ∧ (runPreCall agents lead).personalization = agents.personalizationOut
    ∧ (runPreCallFull agents lead).2.1 = agents.researchOut.getD (fallbackResearch lead)
    ∧ (runPreCallFull agents lead).2.2.1 = agents.scoringOut.getD (fallbackScoring lead)
    ∧ (runPreCallFull agents lead).2.2.2
        = agents.personalizationOut.getD (fallbackPersonalization lead) := by
  obtain ⟨r, s, p⟩ := agents
  cases r <;> cases s <;> cases p <;>
    simp [runPreCall, runPreCallFull, runResearchStage, runScoringStage,
      runPersonalizationStage, preAddError]

/-- Counterexample for C1 as stated: when all three reasoning calls fail,
the run still succeeds but the returned `PreCallResult` has all three stage
fields absent — the fallbacks are computed and passed downstream, yet never
stored on the result. -/
theorem pre_call_partial_result_cex :
    (runPreCall preEnvAllFail cexLead).success = true
    ∧ (runPreCall preEnvAllFail cexLead).research = none
    ∧ (runPreCall preEnvAllFail cexLead).scoring = none
    ∧ (runPreCall preEnvAllFail cexLead).personalization = none := by
  refine ⟨rfl, rfl, rfl, rfl⟩

end FormAgent

namespace FormAgent

/-- C2 (code bug): for every input, both copies of the phone formatter turn
exactly 10 digits into "+1" + digits and 11 digits starting with "1" into
"+" + digits (11 digits after "+" either way), and the
`src/core/config.py` copy returns absent for fewer than 10 digits — but the
`src/config.py` copy (imported by `lead_processor.py` and
`tools/retell_caller.py`, and the one the repository's own tests exercise)
returns the malformed "+1" + digits for fewer than 10 digits and "" for
empty input, where `tests/test_webhooks.py` asserts `None`. -/
theorem phone_format_spec_and_bug :
    (∀ s : String, (extractDigits s).length = 10 →
        Config.format_phone_number s = "+1" ++ extractDigits s
        ∧ CoreConfig.format_phone_number (some s) = some ("+1" ++ extractDigits s))
    ∧ (∀ s : String, (extractDigits s).length = 11 →
        pyStartsWith (extractDigits s) "1" = true →
        Config.format_phone_number s = "+" ++ extractDigits s
        ∧ CoreConfig.format_phone_number (some s) = some ("+" ++ extractDigits s))
    ∧ (∀ s : String, (extractDigits s).length < 10 →
        CoreConfig.format_phone_number (some s) = none)
    ∧ Config.format_phone_number "123" = "+1123"
    ∧ Config.format_phone_number "" = "" := by
  refine ⟨?_, ?_, ?_, by decide, by decide⟩
  · intro s h
    have hs : ¬ s = "" := by
      intro he; subst he; simp [extractDigits] at h
    have hd : ¬ extractDigits s = "" := by
      intro he; rw [he] at h; simp at h
    constructor
    · simp [Config.format_phone_number, hs, h]
    · simp [CoreConfig.format_phone_number, hs, hd, h]
  · intro s h h1
    have hs : ¬ s = "" := by
      intro he; subst he; simp [extractDigits] at h
    have hd : ¬ extractDigits s = "" := by
      intro he; rw [he] at h; simp at h
    constructor
    · simp [Config.format_phone_number, hs, h, h1]
    · simp [CoreConfig.format_phone_number, hs, hd, h, h1]
  · intro s h
    by_cases hs : s = ""
    · simp [CoreConfig.format_phone_number, hs]
    · by_cases hd : extractDigits s = ""
      · simp [CoreConfig.format_phone_number, hs, hd]
      · have h10 : ((extractDigits s).length == 10) = false := by
          simp; omega
        have h11 : ((extractDigits s).length == 11) = false := by
          simp; omega
        have hge : ¬ (extractDigits s).length ≥ 10 := by omega
        simp [CoreConfig.format_phone_number, hs, hd, h10, h11, hge]

/-- Witness for C2's theorem at concrete phone numbers. -/
theorem phone_format_spec_and_bug_witness :
    Config.format_phone_number "4155551234" = "+14155551234"
    ∧ CoreConfig.format_phone_number (some "14155551234") = some "+14155551234"
    ∧ CoreConfig.format_phone_number (some "41234") = none := by
  refine ⟨?_, ?_, ?_⟩
  · exact (phone_format_spec_and_bug.1 "4155551234" (by decide)).1.trans (by decide)
  · exact ((phone_format_spec_and_bug.2.1 "14155551234" (by decide) (by decide)).2).trans
      (by decide)
  · exact phone_format_spec_and_bug.2.2.1 "41234" (by decide)

/-- C7 (code bug): the helper `parse_infrastructure_criticality` does behave
as claimed — integers in [1,5] (also as strings, stripped) are accepted and
anything else becomes `None` without error — but normalization
(`parse_form_submission`) never calls it: the raw value is fed straight to
`ParsedLead`, whose `ge=1, le=5` integer field turns an out-of-range or
non-numeric answer into a raised validation error instead of an absent
field. -/
theorem infrastructure_criticality_parse_bug :
    (∀ n : Int, Config.parse_infrastructure_criticality (.int n)
        = if 1 ≤ n ∧ n ≤ 5 then some n else none)
    ∧ Config.parse_infrastructure_criticality (.int 7) = none
    ∧ Config.parse_infrastructure_criticality (.str " 3 ") = some 3
    ∧ Config.parse_infrastructure_criticality (.str "7") = none
    ∧ Config.parse_infrastructure_criticality (.str "very critical") = none
    ∧ Config.parse_infrastructure_criticality .null = none
    ∧ parse_form_submission rawCrit7 = .error "infrastructure_criticality out of range"
    ∧ parse_form_submission rawCritStr
        = .error "infrastructure_criticality not an integer" := by
  refine ⟨fun n => rfl, by decide, by decide, by decide, by decide, rfl, rfl, rfl⟩

end FormAgent

namespace FormAgent

theorem processWarmLeadResult_mb (env : PostCallEnv) (r : PostCallResult) :
    (processWarmLeadResult env r).meeting_booked = r.meeting_booked := by
  unfold processWarmLeadResult
  split_ifs <;> rfl

theorem processNurtureLeadResult_mb (env : PostCallEnv) (r : PostCallResult) :
    (processNurtureLeadResult env r).meeting_booked = r.meeting_booked := by
  unfold processNurtureLeadResult
  split_ifs <;> rfl

theorem runPostCall_trace (env : PostCallEnv) (t : String) (s : Option String)
    (st : Settings) :
    (runPostCall env t s st).2 =
      (if (postAnalysisValue env t s).interest_level ≥ st.HOT_THRESHOLD then
        [EmailKind.hotLead]
       else if (postAnalysisValue env t s).interest_level ≥ st.WARM_THRESHOLD then
        [EmailKind.warmLead]
       else [EmailKind.nurture]) := by
  simp only [runPostCall]
  split_ifs <;> rfl

theorem runPostCall_mb_nonhot (env : PostCallEnv) (t : String) (s : Option String)
    (st : Settings)
    (h : ¬ (postAnalysisValue env t s).interest_level ≥ st.HOT_THRESHOLD) :
    (runPostCall env t s st).1.meeting_booked = false := by
  simp only [runPostCall]
  rw [if_neg h]
  split_ifs
  · rw [show ∀ r, (processWarmLead env r).1 = processWarmLeadResult env r from fun r => rfl,
      processWarmLeadResult_mb]
    cases env.analysisOut <;> rfl
  · rw [show ∀ r, (processNurtureLead env r).1 = processNurtureLeadResult env r from fun r => rfl,
      processNurtureLeadResult_mb]
    cases env.analysisOut <;> rfl

/-- C6 (amended): every post-call run executes exactly one of the three
follow-up tracks, invoking exactly one e-mail template; with
interest_level 75 and hot_threshold 70 only the hot template is ever
invoked; runs not routed hot never book a meeting and set only the
email_sent flag.  (The claim's "exactly one of the two outcome flags" is
refuted separately: the hot track can set both.) -/
theorem post_call_single_track (env : PostCallEnv) (t : String) (s : Option String)
    (st : Settings) :
    ((runPostCall env t s st).2 = [EmailKind.hotLead]
      ∨ (runPostCall env t s st).2 = [EmailKind.warmLead]
      ∨ (runPostCall env t s st).2 = [EmailKind.nurture])
    ∧ ((postAnalysisValue env t s).interest_level ≥ st.HOT_THRESHOLD →
        (runPostCall env t s st).2 = [EmailKind.hotLead])
    ∧ ((postAnalysisValue env t s).interest_level < st.HOT_THRESHOLD →
        (runPostCall env t s st).2 ≠ [EmailKind.hotLead]
        ∧ (runPostCall env t s st).1.meeting_booked = false) := by
  refine ⟨?_, ?_, ?_⟩
  · rw [runPostCall_trace]
    split_ifs <;> simp
  · intro h
    rw [runPostCall_trace, if_pos h]
  · intro h
    constructor
    · rw [runPostCall_trace, if_neg (not_le.mpr h)]
      split_ifs <;> simp
    · exact runPostCall_mb_nonhot env t s st (not_le.mpr h)

/-- Witness for C6's theorem: a concrete interest-75 environment with the
default 70/40 thresholds is routed to the hot track only. -/
theorem post_call_single_track_witness :
    (runPostCall envBoth "transcript" (some "summary") {}).2 = [EmailKind.hotLead] :=
  (post_call_single_track envBoth "transcript" (some "summary") {}).2.1 (by decide)

/-- Counterexample for C6 as stated: in a hot-track run where the calendar
books the agreed meeting and the follow-up e-mail succeeds, both
`email_sent` and `meeting_booked` are set — not exactly one. -/
theorem post_call_both_flags_cex :
    (runPostCall envBoth "transcript" (some "summary") {}).1.email_sent = true
    ∧ (runPostCall envBoth "transcript" (some "summary") {}).1.meeting_booked = true
    ∧ (runPostCall envBoth "transcript" (some "summary") {}).2 = [EmailKind.hotLead] := by
  refine ⟨rfl, rfl, rfl⟩

/-- C8: a `call_analyzed` event whose call id matches no stored record is
dropped without mutating the store and without running the post-call
pipeline; an event of any other type is acknowledged as ignored, schedules
no background processing, and likewise leaves the store untouched with no
pipeline run. -/
theorem retell_webhook_ignored_events (env : PostCallEnv) (settings : Settings)
    (payload : RetellWebhookPayload) (store : List InquiryRecord) :
    (payload.event ≠ "call_analyzed" →
        process_retell_webhook env settings payload store = (store, false)
        ∧ retellWebhookAck payload = ("ignored", false))
    ∧ (getInquiryByCallId store payload.call_id = none →
        process_retell_webhook env settings payload store = (store, false)) := by
  constructor
  · intro h
    constructor
    · unfold process_retell_webhook
      rw [if_pos h]
    · unfold retellWebhookAck
      rw [if_pos h]
  · intro h
    by_cases hev : payload.event = "call_analyzed"
    · unfold process_retell_webhook
      rw [if_neg (by simp [hev]), h]
    · unfold process_retell_webhook
      rw [if_pos hev]

/-- Witness for C8's theorem at concrete events and an empty store. -/
theorem retell_webhook_ignored_events_witness :
    (process_retell_webhook env0 {} ackPayload [] = ([], false)
      ∧ retellWebhookAck ackPayload = ("ignored", false))
    ∧ process_retell_webhook env0 {} unknownPayload [] = ([], false) :=
  ⟨(retell_webhook_ignored_events env0 {} ackPayload []).1 (by decide),
   (retell_webhook_ignored_events env0 {} unknownPayload []).2 (by rfl)⟩

end FormAgent

namespace FormAgent

theorem bookMeeting_preserve (env : PostCallEnv) (a : CallAnalysis) (r : PostCallResult) :
    (bookMeeting env a r).2.analysis = r.analysis
    ∧ (bookMeeting env a r).2.proposal_pdf_path = r.proposal_pdf_path
    ∧ (bookMeeting env a r).2.email_sent = r.email_sent := by
  obtain ⟨ao, po, pdf, cal, pt, ns, ml, he, we, ne⟩ := env
  cases h : optStrTruthy a.proposed_meeting_time <;>
    cases cal <;> cases pt <;> cases ns <;> cases ml <;>
      simp [bookMeeting, postAddError, h]

theorem processHotLeadResult_fields (env : PostCallEnv) (a : CallAnalysis)
    (r : PostCallResult) (hp : env.proposalOut = none) :
    (processHotLeadResult env a r).proposal_pdf_path = r.proposal_pdf_path
    ∧ (processHotLeadResult env a r).analysis = r.analysis
    ∧ (processHotLeadResult env a r).email_sent = env.hotEmailOk := by
  unfold processHotLeadResult
  simp only [hp]
  obtain ⟨e1, e2, e3⟩ :=
    bookMeeting_preserve env a (postAddError r "Proposal generation returned no output")
  refine ⟨?_, ?_, ?_⟩ <;> split_ifs <;> first | exact e2 | exact e1 | rfl

/-- C10: in a post-call run routed hot (analysis interest at or above the
hot threshold) where proposal generation yields nothing, no meeting is
booked, and the follow-up e-mail is sent, the orchestrator's persistence
step records the inquiry as `warm_processed` — never `hot_processed`, and
(with hot_threshold ≥ warm_threshold) never `nurture_processed`. -/
theorem hot_track_email_only_persists_warm
    (env : PostCallEnv) (t : String) (s : Option String) (st : Settings)
    (a : CallAnalysis) (record : InquiryRecord)
    (hA : env.analysisOut = some a)
    (hHot : a.interest_level ≥ st.HOT_THRESHOLD)
    (hTW : st.WARM_THRESHOLD ≤ st.HOT_THRESHOLD)
    (hProp : env.proposalOut = none)
    (hEmail : env.hotEmailOk = true)
    (hMb : (runPostCall env t s st).1.meeting_booked = false) :
    (updatePostCallResults st (runPostCall env t s st).1 record).status
      = some "warm_processed" := by
  have hval : postAnalysisValue env t s = a := by
    simp [postAnalysisValue, hA]
  have hrun : (runPostCall env t s st).1
      = processHotLeadResult env a { analysis := some a } := by
    simp only [runPostCall, hA, hval]
    rw [if_pos hHot]
    rfl
  obtain ⟨epdf, eana, emai⟩ :=
    processHotLeadResult_fields env a ({ analysis := some a } : PostCallResult) hProp
  rw [hrun] at hMb
  rw [hrun]
  unfold updatePostCallResults
  rw [eana]
  simp only [optStrTruthy]
  rw [epdf]
  simp only [hMb, emai, hEmail]
  rw [if_neg (by simp [optStrTruthy])]
  rw [if_pos trivial, if_pos (le_trans hTW hHot)]
  rfl

/-- Witness for C10's theorem at a concrete environment: interest 75,
default thresholds, failed proposal, no meeting agreed, e-mail sent. -/
theorem hot_track_email_only_persists_warm_witness :
    (updatePostCallResults {} (runPostCall envHotNoProp "transcript" none {}).1 rec0).status
      = some "warm_processed" :=
  hot_track_email_only_persists_warm envHotNoProp "transcript" none {} a75nb rec0
    rfl (by decide) (by decide) rfl rfl (by decide)

end FormAgent

namespace FormAgent

theorem setKey_hasKey_self (m : List (String × FormValue)) (k : String) (v : FormValue) :
    hasKey (setKey m k v) k = true := by
  unfold setKey
  split_ifs with h
  · unfold hasKey at h ⊢
    rw [List.any_map]
    obtain ⟨p, hp, hpk⟩ := List.any_eq_true.mp h
    refine List.any_eq_true.mpr ⟨p, hp, ?_⟩
    simp only [Function.comp_apply]
    rw [if_pos hpk]
    simp
  · unfold hasKey
    rw [List.any_append]
    simp

theorem setKey_hasKey_mono (m : List (String × FormValue)) (k q : String) (v : FormValue)
    (h : hasKey m q = true) : hasKey (setKey m k v) q = true := by
  unfold setKey
  split_ifs with hk
  · unfold hasKey at h ⊢
    rw [List.any_map]
    obtain ⟨p, hp, hpq⟩ := List.any_eq_true.mp h
    refine List.any_eq_true.mpr ⟨p, hp, ?_⟩
    simp only [Function.comp_apply]
    by_cases hpk : (p.1 == k) = true
    · rw [if_pos hpk]
      have hk2 : p.1 = k := by
        exact eq_of_beq hpk
      show (k == q) = true
      rw [← hk2]
      exact hpq
    · rw [if_neg hpk]
      exact hpq
  · unfold hasKey
    rw [List.any_append]
    simp [hasKey] at h
    simp [h]

theorem foldl_preserves_hasKey (tl : List (String × FormValue)) (q : String) :
    ∀ acc, hasKey acc q = true →
      hasKey (tl.foldl (fun acc kv => setKey acc (mappedKeyFor kv.1) (collapseValue kv.2)) acc)
        q = true := by
  induction tl with
  | nil => intro acc h; simpa using h
  | cons hd tl ih =>
      intro acc h
      rw [List.foldl_cons]
      exact ih _ (setKey_hasKey_mono _ _ _ _ h)

theorem foldl_sets_key (raw : List (String × FormValue)) (k : String) (v : FormValue)
    (hmem : (k, v) ∈ raw) :
    ∀ acc,
      hasKey (raw.foldl (fun acc kv => setKey acc (mappedKeyFor kv.1) (collapseValue kv.2)) acc)
        (mappedKeyFor k) = true := by
  induction raw with
  | nil => cases hmem
  | cons hd tl ih =>
      intro acc
      rw [List.foldl_cons]
      rcases List.mem_cons.mp hmem with heq | htl
      · apply foldl_preserves_hasKey
        rw [← heq]
        exact setKey_hasKey_self _ _ _
      · exact ih htl _

theorem getVal_of_hasKey (m : List (String × FormValue)) (q : String)
    (h : hasKey m q = true) : ∃ w, getVal m q = some w := by
  unfold hasKey at h
  unfold getVal
  obtain ⟨p, hp, hq⟩ := List.any_eq_true.mp h
  have hsome : (m.find? (fun p => p.1 == q)).isSome = true := by
    rw [List.find?_isSome]
    exact ⟨p, hp, hq⟩
  obtain ⟨r, hr⟩ := Option.isSome_iff_exists.mp hsome
  exact ⟨r.2, by rw [hr]; rfl⟩

/-- C9: every raw field name is matched exactly against the static table,
then with whitespace stripped, then slug-transformed and passed through, so
each raw field survives (under its derived name) into the normalizer's
output; and a successfully parsed lead retains the original raw payload
verbatim in `raw_form_data`.  The concrete equations exhibit one key per
matching tier ("Name " exact, "Email " only after stripping,
"Custom Field" only via the slug fallback). -/
theorem normalizer_preserves_and_retains :
    (∀ (raw : List (String × FormValue)) (k : String) (v : FormValue), (k, v) ∈ raw →
        ∃ w, getVal (map_form_fields raw) (mappedKeyFor k) = some w)
    ∧ (∀ (raw : List (String × FormValue)) (lead : ParsedLead),
        parse_form_submission raw = .ok lead → lead.raw_form_data = some raw)
    ∧ mappedKeyFor "Name " = "company_name"
    ∧ tableLookup "Email " = none
    ∧ mappedKeyFor "Email " = "email"
    ∧ tableLookup "Custom Field" = none
    ∧ tableLookup (pyStrip "Custom Field") = none
    ∧ mappedKeyFor "Custom Field" = "custom_field" := by
  refine ⟨?_, ?_, by decide, by decide, by decide, by decide, by decide, by decide⟩
  · intro raw k v hmem
    apply getVal_of_hasKey
    unfold map_form_fields
    exact foldl_sets_key raw k v hmem []
  · intro raw lead h
    unfold parse_form_submission at h
    simp only [bind, Except.bind] at h
    repeat' split at h
    all_goals cases h
    rfl

/-- Witness for C9's theorem: the unmapped field of `raw0` survives under
its slug name, and the parsed lead keeps `raw0` verbatim. -/
theorem normalizer_preserves_and_retains_witness :
    (∃ w, getVal (map_form_fields raw0) (mappedKeyFor "Custom Field") = some w)
    ∧ lead0.raw_form_data = some raw0 :=
  ⟨normalizer_preserves_and_retains.1 raw0 "Custom Field" (.str "x") (by decide),
   normalizer_preserves_and_retains.2.1 raw0 lead0 (by rfl)⟩

end FormAgent
